import Mathlib

/-!
Verification development for the `promillen/frontend` telemetry gateway
(`src/python-server`).  The Python sources are shallowly embedded:

* `main.py` — the CoAP ingestion orchestrator `DataResource.render_post`
  (field extraction from the decoded protobuf uplink, the per-section
  WebSocket broadcasts, the record handed to persistence, and the fixed
  downlink reply), and the WebSocket hub `ws_broadcast`.
* `store_to_supabase.py` — the persistence coordinator
  `store_uplink_to_supabase`, with the backend modelled as an outcome
  oracle: each `SupabaseClient` method wraps its whole body in
  `try/except` and returns a boolean, so one call is one `Bool`
  (`false` covers a network error, a non-2xx response and an exception
  alike).

Python `None` becomes `Option.none`; Python truthiness of the extracted
values (`if dev_id:`, `any([...])`, `if data.get("wifi")`) is modelled by
explicit truthiness functions on `Option` values.  The concurrency of
`asyncio.gather` is modelled by a two-phase operation plan: phase 1 is
awaited before the phase-2 tasks are gathered, and any interleaving of
phase 2 is an admissible completion order.
-/

namespace Gateway

/-- Decoded protobuf `config` sub-message of the heartbeat
(fields read at `main.py:277-283`).  `location_mode` is the numeric
protobuf enum value; the source converts it with `str(...)`. -/
structure ConfigMsg where
  dev_id : String
  heartbeat_interval : Nat
  iccid : String
  hw_version : String
  sw_version : String
  location_mode : Nat
  deriving DecidableEq, Repr

/-- Decoded protobuf `activity` sub-message (`main.py:285-290`). -/
structure ActivityMsg where
  sleep : Nat
  modem : Nat
  gnss : Nat
  wifi : Nat
  other : Nat
  deriving DecidableEq, Repr

/-- Decoded protobuf `reboot` sub-message (`main.py:292-295`).
`reason` is the numeric protobuf enum value, converted with `str(...)`
by the source. -/
structure RebootMsg where
  reason : Nat
  file : String
  line : Nat
  deriving DecidableEq, Repr

/-- Decoded protobuf `heartbeat` message.  `config`, `activity` and
`reboot` carry explicit presence (`HasField`); `modem_temperature` is a
plain scalar, read unconditionally at `main.py:297` whenever the
heartbeat is present.  The numeric reading is modelled as `Int`; only
its presence and zero-ness matter to the claims. -/
structure HeartbeatMsg where
  config : Option ConfigMsg
  activity : Option ActivityMsg
  reboot : Option RebootMsg
  modem_temperature : Int
  deriving DecidableEq, Repr

/-- One wifi scan entry of the protobuf `location` message; `mac` is the
lower-case hex string produced by Python's `bytes.hex()`. -/
structure WifiMsg where
  mac : String
  rssi : Int
  deriving DecidableEq, Repr

/-- Decoded protobuf `location` message (`main.py:299-304`). -/
structure LocationMsg where
  wifi : List WifiMsg
  deriving DecidableEq, Repr

/-- The decoded protobuf `Uplink` message.  `heartbeat` and `location`
carry explicit `HasField` presence; `uplink_count` is a plain scalar
(`main.py:306`). -/
structure Uplink where
  heartbeat : Option HeartbeatMsg
  location : Option LocationMsg
  uplink_count : Nat
  deriving DecidableEq, Repr

/-- Python truthiness of an optional integer: `None` and `0` are falsy. -/
def truthyNat : Option Nat → Bool
  | none => false
  | some n => n != 0

/-- Python truthiness of an optional string: `None` and `""` are falsy. -/
def truthyStr : Option String → Bool
  | none => false
  | some s => s != ""

/-- Python truthiness of an optional list: `None` and `[]` are falsy. -/
def truthyList {α : Type} : Option (List α) → Bool
  | none => false
  | some l => !l.isEmpty

/-- Embeds `format_mac` (`main.py:45-46`): split the string into 2-char
chunks.  Helper for `format_mac`. -/
def macChunks : List Char → List String
  | [] => []
  | [a] => [String.mk [a]]
  | a :: b :: rest => String.mk [a, b] :: macChunks rest

/-- `format_mac` (`main.py:45-46`): join the 2-character chunks of the
hex string with colons. -/
def format_mac (mac : String) : String :=
  String.intercalate ":" (macChunks mac.data)

/-- One formatted wifi scan `{mac, rssi}` as appended at `main.py:301-304`. -/
structure WifiScanOut where
  mac : String
  rssi : Int
  deriving DecidableEq, Repr

/-- The local variables of `render_post` after the extraction block
(`main.py:270-307`).  Every variable starts as `None` and is assigned
only under the `HasField` guards, so each is an `Option`. -/
structure Extracted where
  dev_id : Option String
  heartbeat_interval : Option Nat
  iccid : Option String
  hw_version : Option String
  sw_version : Option String
  application_mode : Option String
  activity_sleep : Option Nat
  activity_modem : Option Nat
  activity_gnss : Option Nat
  activity_wifi : Option Nat
  activity_other : Option Nat
  reboot_reason : Option String
  reboot_file : Option String
  reboot_line : Option Nat
  temperature : Option Int
  wifi_list : List WifiScanOut
  uplink_count : Nat
  deriving DecidableEq, Repr

/-- Embeds the extraction block of `render_post` (`main.py:270-307`).
`application_mode = str(hb.config.location_mode)` and
`reboot_reason = str(hb.reboot.reason)` convert the numeric enum values
to decimal strings; `temperature = hb.modem_temperature` is read
whenever the heartbeat is present, with no `HasField` guard. -/
def extract (u : Uplink) : Extracted :=
  { dev_id := u.heartbeat.bind fun hb => hb.config.map fun c => c.dev_id
    heartbeat_interval :=
      u.heartbeat.bind fun hb => hb.config.map fun c => c.heartbeat_interval
    iccid := u.heartbeat.bind fun hb => hb.config.map fun c => c.iccid
    hw_version := u.heartbeat.bind fun hb => hb.config.map fun c => c.hw_version
    sw_version := u.heartbeat.bind fun hb => hb.config.map fun c => c.sw_version
    application_mode :=
      u.heartbeat.bind fun hb => hb.config.map fun c => toString c.location_mode
    activity_sleep := u.heartbeat.bind fun hb => hb.activity.map fun a => a.sleep
    activity_modem := u.heartbeat.bind fun hb => hb.activity.map fun a => a.modem
    activity_gnss := u.heartbeat.bind fun hb => hb.activity.map fun a => a.gnss
    activity_wifi := u.heartbeat.bind fun hb => hb.activity.map fun a => a.wifi
    activity_other := u.heartbeat.bind fun hb => hb.activity.map fun a => a.other
    reboot_reason :=
      u.heartbeat.bind fun hb => hb.reboot.map fun r => toString r.reason
    reboot_file := u.heartbeat.bind fun hb => hb.reboot.map fun r => r.file
    reboot_line := u.heartbeat.bind fun hb => hb.reboot.map fun r => r.line
    temperature := u.heartbeat.map fun hb => hb.modem_temperature
    wifi_list :=
      match u.location with
      | some loc => loc.wifi.map fun w => { mac := format_mac w.mac, rssi := w.rssi }
      | none => []
    uplink_count := u.uplink_count }

/-- The condition `any([heartbeat_interval, iccid, hw_version, sw_version,
application_mode])` used both at `main.py:326` (heartbeat broadcast) and
`main.py:406` (building `device_config`). -/
def configAny (e : Extracted) : Bool :=
  truthyNat e.heartbeat_interval || truthyStr e.iccid || truthyStr e.hw_version
    || truthyStr e.sw_version || truthyStr e.application_mode

/-- The condition `any([activity_sleep, activity_modem, activity_gnss,
activity_wifi, activity_other])` used at `main.py:342` and `main.py:413`. -/
def activityAny (e : Extracted) : Bool :=
  truthyNat e.activity_sleep || truthyNat e.activity_modem
    || truthyNat e.activity_gnss || truthyNat e.activity_wifi
    || truthyNat e.activity_other

/-- The condition `any([reboot_reason, reboot_file, reboot_line])` used at
`main.py:358` and `main.py:418`. -/
def rebootAny (e : Extracted) : Bool :=
  truthyStr e.reboot_reason || truthyStr e.reboot_file || truthyNat e.reboot_line

/-- The type tag of a broadcast LiveEvent (`main.py:309-394`). -/
inductive EventType
  | coap
  | heartbeat
  | activity
  | reboot
  | temperature
  | location
  deriving DecidableEq, Repr

/-- The sequence of LiveEvents broadcast by `render_post`
(`main.py:309-394`): everything is guarded by `if dev_id:`; inside, the
base `coap` event is sent first, then one event per dispatch condition,
in source order heartbeat, activity, reboot, temperature, location. -/
def events (u : Uplink) : List EventType :=
  let e := extract u
  if truthyStr e.dev_id then
    [EventType.coap]
      ++ (if configAny e then [EventType.heartbeat] else [])
      ++ (if activityAny e then [EventType.activity] else [])
      ++ (if rebootAny e then [EventType.reboot] else [])
      ++ (if e.temperature.isSome then [EventType.temperature] else [])
      ++ (if !e.wifi_list.isEmpty then [EventType.location] else [])
  else []

/-- The `device_config` dict built at `main.py:400-406` (values may be
`None`; the dict itself is built only when `configAny` holds). -/
structure ConfigPayload where
  heartbeat_interval : Option Nat
  iccid : Option String
  hw_version : Option String
  sw_version : Option String
  application_mode : Option String
  deriving DecidableEq, Repr

/-- The `activity` dict built at `main.py:407-413`. -/
structure ActivityPayload where
  sleep : Option Nat
  modem : Option Nat
  gnss : Option Nat
  wifi : Option Nat
  other : Option Nat
  deriving DecidableEq, Repr

/-- The `reboot` dict built at `main.py:414-418`. -/
structure RebootPayload where
  reason : Option String
  file : Option String
  line : Option Nat
  deriving DecidableEq, Repr

/-- The dict passed to `store_uplink_to_supabase` (`main.py:397-421`):
each section key is the built dict when its `any([...])` condition
holds, else `None`; `wifi` is the scan list when non-empty, else `None`. -/
structure StoredData where
  devid : Option String
  uplink_count : Nat
  device_config : Option ConfigPayload
  activity : Option ActivityPayload
  reboot : Option RebootPayload
  temperature : Option Int
  wifi : Option (List WifiScanOut)
  deriving DecidableEq, Repr

/-- Embeds the argument construction of the `store_uplink_to_supabase`
call (`main.py:396-421`). -/
def toStored (u : Uplink) : StoredData :=
  let e := extract u
  { devid := e.dev_id
    uplink_count := e.uplink_count
    device_config :=
      if configAny e then
        some { heartbeat_interval := e.heartbeat_interval, iccid := e.iccid,
               hw_version := e.hw_version, sw_version := e.sw_version,
               application_mode := e.application_mode }
      else none
    activity :=
      if activityAny e then
        some { sleep := e.activity_sleep, modem := e.activity_modem,
               gnss := e.activity_gnss, wifi := e.activity_wifi,
               other := e.activity_other }
      else none
    reboot :=
      if rebootAny e then
        some { reason := e.reboot_reason, file := e.reboot_file,
               line := e.reboot_line }
      else none
    temperature := e.temperature
    wifi := if !e.wifi_list.isEmpty then some e.wifi_list else none }

/-- The downlink configuration written at `main.py:423-426`:
`heartbeat_interval = 1100`, `location_mode = 2` (protobuf enum
0=NONE, 1=GNSS, 2=WIFI). -/
structure DownlinkConfig where
  heartbeat_interval : Nat
  location_mode : Nat
  deriving DecidableEq, Repr

/-- The observable outcome of the success path of `render_post`
(`main.py:262-433`): the broadcast LiveEvents, the argument of the
(unconditional) `store_uplink_to_supabase` call, and the downlink reply. -/
structure RenderResult where
  events : List EventType
  persist_arg : Option StoredData
  downlink : DownlinkConfig
  deriving DecidableEq, Repr

/-- Embeds the success path of `DataResource.render_post`
(`main.py:262-433`) on an already-decoded uplink: broadcast the events,
call `store_uplink_to_supabase` (always — the call at `main.py:397` is
outside the `if dev_id:` block), and reply with the fixed downlink
configuration. -/
def render_post (u : Uplink) : RenderResult :=
  { events := events u
    persist_arg := some (toStored u)
    downlink := { heartbeat_interval := 1100, location_mode := 2 } }

/-- The kind of one backend write operation derived by
`store_uplink_to_supabase` (`store_to_supabase.py:139-177`).  The two
sensor inserts are distinguished by their `data_type` argument
(`"temperature"` / `"location"`). -/
inductive OpKind
  | config_upsert
  | activity_insert
  | reboot_insert
  | sensor_temperature
  | sensor_location
  deriving DecidableEq, Repr

/-- The spec's `BatchResult` shape (spec §4.3); used only to state what
the code would have to return.  The Python function never builds such a
value. -/
structure BatchResult where
  total : Nat
  succeeded : Nat
  per_operation : List (OpKind × Bool)
  deriving DecidableEq, Repr

/-- The observable outcome of one `store_uplink_to_supabase` call
(`store_to_supabase.py:121-200`): `ret` is the Python return value
(always `None` — every `return` in the function is bare and the body
falls off the end); `session_created` records whether the
`aiohttp.ClientSession` was opened; `phase1` is the operation awaited
at `store_to_supabase.py:142` before anything else; `phase2` is the
list of dependent operations gathered concurrently at
`store_to_supabase.py:184`; `total` and `succeeded` are the logged
counters. -/
structure StoreResult where
  ret : Option BatchResult
  session_created : Bool
  phase1 : List OpKind
  phase2 : List OpKind
  total : Nat
  succeeded : Nat
  deriving DecidableEq, Repr

/-- The phase-1 operation list: one `config_upsert` when
`data.get("device_config")` is truthy (`store_to_supabase.py:141-147`;
the dict built in `main.py` always has five keys, so it is truthy iff
it is not `None`). -/
def configOps (data : StoredData) : List OpKind :=
  if data.device_config.isSome then [OpKind.config_upsert] else []

/-- The dependent task list built at `store_to_supabase.py:150-177`, in
source order: activity, reboot, temperature (tested `is not None`),
wifi (tested for truthiness, i.e. non-empty list). -/
def dependentOps (data : StoredData) : List OpKind :=
  (if data.activity.isSome then [OpKind.activity_insert] else [])
    ++ (if data.reboot.isSome then [OpKind.reboot_insert] else [])
    ++ (if data.temperature.isSome then [OpKind.sensor_temperature] else [])
    ++ (if truthyList data.wifi then [OpKind.sensor_location] else [])

/-- Embeds `store_uplink_to_supabase` (`store_to_supabase.py:121-200`).
`oracle` is the backend: the boolean each `SupabaseClient` method
returns for the given operation (its whole body is wrapped in
`try/except`, so `false` covers network errors, non-2xx responses and
exceptions, and the method never raises).  The guard `if not devid`
(`store_to_supabase.py:129-131`) returns early — before the client and
the session are created — when `devid` is `None` or empty.  Phase 1
(`configOps`) is awaited to completion; phase 2 (`dependentOps`) is then
gathered concurrently; `total` and `succeeded` are the logged counters
(`total_operations` and `success_count`). -/
def store_uplink_to_supabase (oracle : OpKind → Bool) (data : StoredData) :
    StoreResult :=
  if !truthyStr data.devid then
    { ret := none, session_created := false, phase1 := [], phase2 := [],
      total := 0, succeeded := 0 }
  else
    { ret := none
      session_created := true
      phase1 := configOps data
      phase2 := dependentOps data
      total := (configOps data).length + (dependentOps data).length
      succeeded := ((configOps data).filter oracle).length
        + ((dependentOps data).filter oracle).length }

/-- An admissible completion order of one `store_uplink_to_supabase`
call: the awaited phase-1 operation completes first, and the
concurrently gathered phase-2 operations may complete in any order. -/
def admissibleOrder (r : StoreResult) (order : List OpKind) : Prop :=
  ∃ l, r.phase2.Perm l ∧ order = r.phase1 ++ l

/-- One WebSocket client as seen by `ws_broadcast` (`main.py:51-67`):
`closed` models `ws.closed`, `send_fails` models `ws.send_str` raising. -/
structure WsClient where
  wid : Nat
  closed : Bool
  send_fails : Bool
  deriving DecidableEq, Repr

/-- The loop body of `ws_broadcast` (`main.py:57-65`), returning
`(to_drop, attempted, delivered)`: a closed client is dropped without a
send attempt; a send is attempted on every other client, and a failing
send adds the client to `to_drop`. -/
def wsLoop : List WsClient → List WsClient × List WsClient × List WsClient
  | [] => ([], [], [])
  | ws :: rest =>
    let r := wsLoop rest
    if ws.closed then (ws :: r.1, r.2.1, r.2.2)
    else if ws.send_fails then (ws :: r.1, ws :: r.2.1, r.2.2)
    else (r.1, ws :: r.2.1, ws :: r.2.2)

/-- The observable outcome of one `ws_broadcast` call: which clients a
send was attempted on, which sends succeeded, and the registry entry
for the device afterwards. -/
structure BroadcastResult where
  attempted : List WsClient
  delivered : List WsClient
  remaining : List WsClient
  deriving DecidableEq, Repr

/-- Embeds `ws_broadcast` (`main.py:51-67`) for one device's registry
entry: return immediately when `device_id` is falsy or the client set
is empty; otherwise run the delivery loop and then discard every
client collected in `to_drop`.  The function catches every send
exception inside the loop and returns normally on all inputs. -/
def ws_broadcast (device_id : String) (clients : List WsClient) :
    BroadcastResult :=
  if device_id = "" ∨ clients = [] then
    { attempted := [], delivered := [], remaining := clients }
  else
    let r := wsLoop clients
    { attempted := r.2.1
      delivered := r.2.2
      remaining := clients.filter fun ws => !(decide (ws ∈ r.1)) }

/-- Sample uplink: config present with device id `"D1"`, activity marker
set with every counter zero, temperature 21. -/
def c1_input : Uplink :=
  ⟨some ⟨some ⟨"D1", 300, "X", "v1", "v2", 2⟩, some ⟨0, 0, 0, 0, 0⟩, none, 21⟩,
    none, 7⟩

/-- Sample persistence record with a device id and no present sections. -/
def c2_data : StoredData :=
  ⟨some "D1", 7, none, none, none, none, none⟩

/-- Sample uplink with no heartbeat at all, hence no device id. -/
def c3_input : Uplink := ⟨none, none, 7⟩

/-- Sample persistence record with config, activity and reboot present. -/
def c4_data : StoredData :=
  ⟨some "D1", 7,
    some ⟨some 300, some "X", some "v1", some "v2", some "2"⟩,
    some ⟨some 10, some 5, none, none, none⟩,
    some ⟨some "1", some "main.c", some 123⟩,
    none, none⟩

/-- Sample persistence record with activity and temperature present. -/
def c5_data : StoredData :=
  ⟨some "D1", 7, none, some ⟨some 10, some 5, none, none, none⟩, none,
    some 0, none⟩

/-- Sample backend oracle on which only the temperature insert fails. -/
def c5_oracle : OpKind → Bool
  | OpKind.sensor_temperature => false
  | _ => true

/-- Sample uplink: config present with device id `"D1"`, no activity,
no reboot, no wifi scans; temperature 21 is present because the
heartbeat is. -/
def c6_input : Uplink :=
  ⟨some ⟨some ⟨"D1", 300, "X", "v1", "v2", 2⟩, none, none, 21⟩, none, 7⟩

/-- Sample healthy WebSocket client. -/
def c7_good : WsClient := ⟨1, false, false⟩

/-- Sample WebSocket client whose send raises. -/
def c7_bad : WsClient := ⟨2, false, true⟩

/-- Sample uplink whose heartbeat is set (so the temperature scalar is
read, value 0) but which carries no config section, hence no device id. -/
def c10_bad_input : Uplink := ⟨some ⟨none, none, none, 0⟩, none, 5⟩

/-- Sample uplink with a device id and a zero temperature reading. -/
def c10_zero_input : Uplink :=
  ⟨some ⟨some ⟨"D1", 300, "X", "v1", "v2", 2⟩, none, none, 0⟩, none, 7⟩

theorem truthyStr_false_of_no_devid {s : Option String}
    (h : s = none ∨ s = some "") : truthyStr s = false := by
  rcases h with h | h <;> simp [truthyStr, h]

theorem store_no_devid (oracle : OpKind → Bool) (d : StoredData)
    (h : truthyStr d.devid = false) :
    store_uplink_to_supabase oracle d =
      { ret := none, session_created := false, phase1 := [], phase2 := [],
        total := 0, succeeded := 0 } := by
  simp [store_uplink_to_supabase, h]

theorem store_spec (oracle : OpKind → Bool) (d : StoredData)
    (h : truthyStr d.devid = true) :
    store_uplink_to_supabase oracle d =
      { ret := none, session_created := true, phase1 := configOps d,
        phase2 := dependentOps d,
        total := (configOps d).length + (dependentOps d).length,
        succeeded := ((configOps d).filter oracle).length
          + ((dependentOps d).filter oracle).length } := by
  simp [store_uplink_to_supabase, h]

theorem mem_if_singleton {α : Type} (a b : α) (c : Bool) :
    a ∈ (if c then [b] else []) ↔ (c = true ∧ a = b) := by
  cases c <;> simp

theorem toStored_devid (u : Uplink) : (toStored u).devid = (extract u).dev_id := rfl

theorem toStored_temperature (u : Uplink) :
    (toStored u).temperature = (extract u).temperature := rfl

theorem toStored_config_isSome (u : Uplink) :
    (toStored u).device_config.isSome = configAny (extract u) := by
  cases h : configAny (extract u) <;> simp [toStored, h]

theorem toStored_activity_isSome (u : Uplink) :
    (toStored u).activity.isSome = activityAny (extract u) := by
  cases h : activityAny (extract u) <;> simp [toStored, h]

theorem toStored_reboot_isSome (u : Uplink) :
    (toStored u).reboot.isSome = rebootAny (extract u) := by
  cases h : rebootAny (extract u) <;> simp [toStored, h]

theorem toStored_wifi_isSome (u : Uplink) :
    (toStored u).wifi.isSome = !(extract u).wifi_list.isEmpty := by
  cases h : (extract u).wifi_list.isEmpty <;> simp [toStored, h]

theorem wsLoop_drop_spec (l : List WsClient) (ws : WsClient) :
    ws ∈ (wsLoop l).1 ↔ ws ∈ l ∧ (ws.closed || ws.send_fails) = true := by
  induction l with
  | nil => simp [wsLoop]
  | cons a rest ih =>
    rcases hac : a.closed with _ | _ <;> rcases haf : a.send_fails with _ | _ <;>
      simp [wsLoop, hac, haf, ih] <;> aesop

theorem wsLoop_attempted_spec (l : List WsClient) (ws : WsClient) :
    ws ∈ (wsLoop l).2.1 ↔ ws ∈ l ∧ ws.closed = false := by
  induction l with
  | nil => simp [wsLoop]
  | cons a rest ih =>
    rcases hac : a.closed with _ | _ <;> rcases haf : a.send_fails with _ | _ <;>
      simp [wsLoop, hac, haf, ih] <;> aesop

theorem wsLoop_delivered_spec (l : List WsClient) (ws : WsClient) :
    ws ∈ (wsLoop l).2.2 ↔
      ws ∈ l ∧ ws.closed = false ∧ ws.send_fails = false := by
  induction l with
  | nil => simp [wsLoop]
  | cons a rest ih =>
    rcases hac : a.closed with _ | _ <;> rcases haf : a.send_fails with _ | _ <;>
      simp [wsLoop, hac, haf, ih] <;> aesop

theorem ws_broadcast_remaining (device_id : String) (clients : List WsClient)
    (hdid : device_id ≠ "") (ws : WsClient) :
    ws ∈ (ws_broadcast device_id clients).remaining ↔
      ws ∈ clients ∧ ws ∉ (wsLoop clients).1 := by
  rcases hcl : clients with _ | ⟨a, rest⟩
  · simp [ws_broadcast, wsLoop]
  · simp [ws_broadcast, hdid, List.mem_filter]

/-- C1: evaluation of the code at the failing input.  The spec (and the
claim) require section presence to follow the wire format's explicit
is-section-set markers.  On `c1_input` the heartbeat's `activity`
sub-message is explicitly set (all counters zero) and the pipeline is
live (`dev_id = "D1"` is truthy), yet the code — which gates the
activity section on `any([...])` truthiness of the counter values at
`main.py:342` and `main.py:413` — broadcasts no `activity` LiveEvent,
hands `activity = None` to persistence, and derives no
`activity_insert` write operation. -/
theorem c1_activity_marker_ignored :
    (c1_input.heartbeat.bind HeartbeatMsg.activity) = some ⟨0, 0, 0, 0, 0⟩ ∧
    truthyStr (extract c1_input).dev_id = true ∧
    EventType.activity ∉ events c1_input ∧
    (toStored c1_input).activity = none ∧
    OpKind.activity_insert ∉
      ((store_uplink_to_supabase (fun _ => true) (toStored c1_input)).phase1
        ++ (store_uplink_to_supabase (fun _ => true) (toStored c1_input)).phase2) := by
  decide

/-- C2 counterexample: `store_uplink_to_supabase` does not return a
`BatchResult`.  Every `return` in the Python function is bare and the
body falls off the end, so the call returns `None` — in particular, on
a record with a device id and no present sections it does not return
`{total: 0, succeeded: 0, per_operation: []}` as the claim states. -/
theorem c2_no_batch_result_returned :
    (store_uplink_to_supabase (fun _ => true) c2_data).ret = none ∧
    (store_uplink_to_supabase (fun _ => true) c2_data).ret ≠
      some { total := 0, succeeded := 0, per_operation := [] } := by
  decide

/-- C2 as amended: `store_uplink_to_supabase` always returns `None`,
tracking `{total, succeeded}` only internally (they are logged, and no
`per_operation` collection exists); for a record with no present
sections it derives no write operation at all — both phases are empty
and the logged counters are `total = 0`, `succeeded = 0` — so no
backend write is issued (an HTTP client session is still opened when
the device id is present). -/
theorem c2_persist_summary (oracle : OpKind → Bool) (d : StoredData) :
    (store_uplink_to_supabase oracle d).ret = none ∧
    (d.device_config = none → d.activity = none → d.reboot = none →
      d.temperature = none → d.wifi = none →
        (store_uplink_to_supabase oracle d).phase1 = [] ∧
        (store_uplink_to_supabase oracle d).phase2 = [] ∧
        (store_uplink_to_supabase oracle d).total = 0 ∧
        (store_uplink_to_supabase oracle d).succeeded = 0) := by
  constructor
  · cases h : truthyStr d.devid <;> simp [store_uplink_to_supabase, h]
  · intro h1 h2 h3 h4 h5
    cases h : truthyStr d.devid <;>
      simp [store_uplink_to_supabase, h, configOps, dependentOps,
        truthyList, h1, h2, h3, h4, h5]

/-- C2 witness: the amended theorem evaluated on the concrete record
`c2_data` (device id `"D1"`, no present sections). -/
theorem c2_persist_summary_witness :
    (store_uplink_to_supabase (fun _ => false) c2_data).ret = none ∧
    (store_uplink_to_supabase (fun _ => false) c2_data).phase1 = [] ∧
    (store_uplink_to_supabase (fun _ => false) c2_data).phase2 = [] ∧
    (store_uplink_to_supabase (fun _ => false) c2_data).total = 0 ∧
    (store_uplink_to_supabase (fun _ => false) c2_data).succeeded = 0 := by
  have h := c2_persist_summary (fun _ => false) c2_data
  exact ⟨h.1, h.2 rfl rfl rfl rfl rfl⟩

/-- C3 counterexample: the Orchestrator calls the Persistence
Coordinator even when the decoded record has no device id.  `c3_input`
decodes with `dev_id = None`, yet `render_post` still invokes
`store_uplink_to_supabase` (the call at `main.py:397` sits outside the
`if dev_id:` block), so the guard is not at the call site. -/
theorem c3_persist_called_without_devid :
    (extract c3_input).dev_id = none ∧
    ((render_post c3_input).persist_arg).isSome = true := by
  decide

/-- C3 as amended: the Orchestrator invokes the Persistence Coordinator
unconditionally — `persist_arg` is always the record built at
`main.py:397-421` — and the missing-device-id guard sits inside the
Coordinator instead (`store_to_supabase.py:129-131`), which then
returns early: no session is created and no operation is derived. -/
theorem c3_guard_inside_coordinator (oracle : OpKind → Bool) (u : Uplink) :
    (render_post u).persist_arg = some (toStored u) ∧
    (truthyStr (extract u).dev_id = false →
      store_uplink_to_supabase oracle (toStored u) =
        { ret := none, session_created := false, phase1 := [], phase2 := [],
          total := 0, succeeded := 0 }) := by
  refine ⟨rfl, fun h => store_no_devid oracle (toStored u) ?_⟩
  rw [toStored_devid]
  exact h

/-- C3 witness: the amended theorem evaluated on the concrete uplink
`c3_input` (no heartbeat, hence no device id). -/
theorem c3_guard_inside_coordinator_witness :
    (render_post c3_input).persist_arg = some (toStored c3_input) ∧
    store_uplink_to_supabase (fun _ => true) (toStored c3_input) =
      { ret := none, session_created := false, phase1 := [], phase2 := [],
        total := 0, succeeded := 0 } := by
  have h := c3_guard_inside_coordinator (fun _ => true) c3_input
  exact ⟨h.1, h.2 rfl⟩

/-- C9: with a missing (`None`) or empty device id, the Persistence
Coordinator is a no-op: the guard at `store_to_supabase.py:129-131`
returns before `SupabaseClient()` and the `aiohttp.ClientSession` are
created, so no session is opened, no operation is derived and the
function returns normally (the embedding is a total function). -/
theorem c9_no_devid_noop (oracle : OpKind → Bool) (d : StoredData)
    (h : d.devid = none ∨ d.devid = some "") :
    store_uplink_to_supabase oracle d =
      { ret := none, session_created := false, phase1 := [], phase2 := [],
        total := 0, succeeded := 0 } :=
  store_no_devid oracle d (truthyStr_false_of_no_devid h)

/-- C9 witness: the theorem evaluated on a concrete record whose device
id is the empty string. -/
theorem c9_no_devid_noop_witness :
    store_uplink_to_supabase (fun _ => true)
        ⟨some "", 3, none, none, none, some 7, none⟩ =
      { ret := none, session_created := false, phase1 := [], phase2 := [],
        total := 0, succeeded := 0 } :=
  c9_no_devid_noop (fun _ => true) ⟨some "", 3, none, none, none, some 7, none⟩
    (Or.inr rfl)

theorem config_not_mem_dependentOps (d : StoredData) :
    OpKind.config_upsert ∉ dependentOps d := by
  simp [dependentOps, List.mem_append, mem_if_singleton]

/-- C4: within one `store_uplink_to_supabase` call, the config upsert is
the whole of phase 1 — awaited to completion (success or failure, since
`upsert_device_config` never raises) at `store_to_supabase.py:142`
before the dependent tasks are even created — so every admissible
completion order starts with `config_upsert`; and the non-config
operations are exactly phase 2, gathered concurrently at
`store_to_supabase.py:184`, so every interleaving of them is
admissible (no ordering guarantee among themselves). -/
theorem c4_config_first (oracle : OpKind → Bool) (d : StoredData)
    (hdev : truthyStr d.devid = true) :
    (d.device_config.isSome = true →
      ∀ order, admissibleOrder (store_uplink_to_supabase oracle d) order →
        order.head? = some OpKind.config_upsert) ∧
    OpKind.config_upsert ∉ (store_uplink_to_supabase oracle d).phase2 ∧
    (∀ l, (store_uplink_to_supabase oracle d).phase2.Perm l →
      admissibleOrder (store_uplink_to_supabase oracle d)
        ((store_uplink_to_supabase oracle d).phase1 ++ l)) := by
  rw [store_spec oracle d hdev]
  refine ⟨?_, ?_, ?_⟩
  · intro hc order hadm
    obtain ⟨l, hperm, rfl⟩ := hadm
    simp only [configOps, hc, if_true]
    rfl
  · exact config_not_mem_dependentOps d
  · intro l hperm
    exact ⟨l, hperm, rfl⟩

/-- C4 witness: on `c4_data` (config, activity and reboot present) the
completion order `config_upsert, reboot_insert, activity_insert` — a
permutation of the gathered phase 2 prefixed by phase 1 — is
admissible and starts with the config upsert, which phase 2 never
contains. -/
theorem c4_config_first_witness :
    ((store_uplink_to_supabase (fun _ => true) c4_data).phase1
        ++ [OpKind.reboot_insert, OpKind.activity_insert]).head? =
      some OpKind.config_upsert ∧
    OpKind.config_upsert ∉
      (store_uplink_to_supabase (fun _ => true) c4_data).phase2 := by
  have h := c4_config_first (fun _ => true) c4_data (by decide)
  have he : (store_uplink_to_supabase (fun _ => true) c4_data).phase2 =
      [OpKind.activity_insert, OpKind.reboot_insert] := by decide
  have hperm : (store_uplink_to_supabase (fun _ => true) c4_data).phase2.Perm
      [OpKind.reboot_insert, OpKind.activity_insert] := by
    rw [he]
    exact List.Perm.swap _ _ _
  exact ⟨h.1 (by decide) _ (h.2.2 _ hperm), h.2.1⟩

/-- C5: failure isolation of one `store_uplink_to_supabase` call.  Which
operations are dispatched (both phases) does not depend on the backend
outcomes at all, so a failing operation — network error, non-2xx
response or exception, all of which make the corresponding
`SupabaseClient` method return `False` without raising — cancels,
retries or blocks nothing; the logged `total` counts every derived
operation, `succeeded` counts exactly the non-failing ones, and the
call returns normally (`ret = none`) for every outcome assignment. -/
theorem c5_failure_isolation (oracle oracle' : OpKind → Bool)
    (d : StoredData) (hdev : truthyStr d.devid = true) :
    (store_uplink_to_supabase oracle d).phase1 =
      (store_uplink_to_supabase oracle' d).phase1 ∧
    (store_uplink_to_supabase oracle d).phase2 =
      (store_uplink_to_supabase oracle' d).phase2 ∧
    (store_uplink_to_supabase oracle d).total =
      ((store_uplink_to_supabase oracle d).phase1
        ++ (store_uplink_to_supabase oracle d).phase2).length ∧
    (store_uplink_to_supabase oracle d).succeeded =
      (((store_uplink_to_supabase oracle d).phase1
        ++ (store_uplink_to_supabase oracle d).phase2).filter oracle).length ∧
    (store_uplink_to_supabase oracle d).ret = none := by
  rw [store_spec oracle d hdev, store_spec oracle' d hdev]
  refine ⟨rfl, rfl, ?_, ?_, rfl⟩
  · simp [List.length_append]
  · simp [List.filter_append]

/-- C5 witness: on `c5_data` (activity and temperature present) with the
oracle on which only the temperature insert fails, the dispatched
phases match the all-success run, `total = 2`, and `succeeded = 1` —
exactly the non-failing subset: the failing `sensor_insert` does not
prevent the concurrently dispatched `activity_insert` from
succeeding. -/
theorem c5_failure_isolation_witness :
    ((store_uplink_to_supabase c5_oracle c5_data).phase1 =
        (store_uplink_to_supabase (fun _ => true) c5_data).phase1 ∧
      (store_uplink_to_supabase c5_oracle c5_data).phase2 =
        (store_uplink_to_supabase (fun _ => true) c5_data).phase2 ∧
      (store_uplink_to_supabase c5_oracle c5_data).total =
        ((store_uplink_to_supabase c5_oracle c5_data).phase1
          ++ (store_uplink_to_supabase c5_oracle c5_data).phase2).length ∧
      (store_uplink_to_supabase c5_oracle c5_data).succeeded =
        (((store_uplink_to_supabase c5_oracle c5_data).phase1
          ++ (store_uplink_to_supabase c5_oracle c5_data).phase2).filter
            c5_oracle).length ∧
      (store_uplink_to_supabase c5_oracle c5_data).ret = none) ∧
    (store_uplink_to_supabase c5_oracle c5_data).total = 2 ∧
    (store_uplink_to_supabase c5_oracle c5_data).succeeded = 1 := by
  refine ⟨c5_failure_isolation c5_oracle (fun _ => true) c5_data (by decide),
    by decide, by decide⟩

/-- C6: for every decoded uplink whose `dev_id` is present (truthy), the
broadcast sequence is exactly one base `coap` LiveEvent followed by one
LiveEvent per present section of the record handed to persistence
(section present ⟺ not `None` in the `store_uplink_to_supabase`
argument — the broadcast guards at `main.py:326,342,358,372,384` are
the very conditions that build the record at `main.py:397-421`), in the
fixed order heartbeat, activity, reboot, temperature, location.  A
record with only `config` (and the always-read temperature scalar)
present yields exactly `[coap, heartbeat, temperature]`. -/
theorem c6_event_sequence (u : Uplink)
    (hdev : truthyStr (extract u).dev_id = true) :
    events u = [EventType.coap]
      ++ (if (toStored u).device_config.isSome then [EventType.heartbeat] else [])
      ++ (if (toStored u).activity.isSome then [EventType.activity] else [])
      ++ (if (toStored u).reboot.isSome then [EventType.reboot] else [])
      ++ (if (toStored u).temperature.isSome then [EventType.temperature] else [])
      ++ (if (toStored u).wifi.isSome then [EventType.location] else []) := by
  rw [toStored_config_isSome, toStored_activity_isSome, toStored_reboot_isSome,
    toStored_temperature, toStored_wifi_isSome]
  simp [events, hdev]

/-- C6 witness: on `c6_input` (config present, device id `"D1"`, no
activity, reboot or wifi; temperature present because the heartbeat
is), the broadcast sequence is exactly `[coap, heartbeat, temperature]`
— the example of the claim. -/
theorem c6_event_sequence_witness :
    truthyStr (extract c6_input).dev_id = true ∧
    events c6_input =
      [EventType.coap, EventType.heartbeat, EventType.temperature] := by
  have h := c6_event_sequence c6_input (by decide)
  refine ⟨by decide, ?_⟩
  rw [h]
  decide

theorem ws_broadcast_spec (device_id : String) (clients : List WsClient)
    (hdid : device_id ≠ "") (hcl : clients ≠ []) :
    ws_broadcast device_id clients =
      { attempted := (wsLoop clients).2.1
        delivered := (wsLoop clients).2.2
        remaining :=
          clients.filter fun ws => !(decide (ws ∈ (wsLoop clients).1)) } := by
  simp [ws_broadcast, hdid, hcl]

/-- C7: delivery-failure isolation of `ws_broadcast` (`main.py:51-67`).
A subscriber whose send raises is removed from the registry entry, yet
every other non-closed subscriber still gets its delivery attempt (the
exception is caught inside the loop, which continues), and every
non-closed, non-failing subscriber both receives the event and stays
registered; conversely only closed or failing subscribers are ever
removed.  The embedding is a total function: no error reaches the
caller. -/
theorem c7_delivery_failure_isolated (device_id : String)
    (clients : List WsClient) (ws : WsClient) (hdid : device_id ≠ "")
    (hmem : ws ∈ clients) (hopen : ws.closed = false)
    (hfail : ws.send_fails = true) :
    ws ∉ (ws_broadcast device_id clients).remaining ∧
    (∀ w ∈ clients, w.closed = false →
      w ∈ (ws_broadcast device_id clients).attempted) ∧
    (∀ w ∈ clients, w.closed = false → w.send_fails = false →
      w ∈ (ws_broadcast device_id clients).remaining ∧
      w ∈ (ws_broadcast device_id clients).delivered) ∧
    (∀ w ∈ clients, w ∉ (ws_broadcast device_id clients).remaining →
      (w.closed || w.send_fails) = true) := by
  have hcl : clients ≠ [] := List.ne_nil_of_mem hmem
  have hspec := ws_broadcast_spec device_id clients hdid hcl
  refine ⟨?_, ?_, ?_, ?_⟩
  · intro hin
    rcases (ws_broadcast_remaining device_id clients hdid ws).mp hin with ⟨_, hnd⟩
    exact hnd ((wsLoop_drop_spec clients ws).mpr
      ⟨hmem, by simp [hopen, hfail]⟩)
  · intro w hw hwopen
    rw [hspec]
    exact (wsLoop_attempted_spec clients w).mpr ⟨hw, hwopen⟩
  · intro w hw hwopen hwok
    constructor
    · refine (ws_broadcast_remaining device_id clients hdid w).mpr ⟨hw, ?_⟩
      intro hdrop
      rcases (wsLoop_drop_spec clients w).mp hdrop with ⟨_, hcond⟩
      simp [hwopen, hwok] at hcond
    · rw [hspec]
      exact (wsLoop_delivered_spec clients w).mpr ⟨hw, hwopen, hwok⟩
  · intro w hw hnr
    by_contra hcond
    apply hnr
    refine (ws_broadcast_remaining device_id clients hdid w).mpr ⟨hw, ?_⟩
    intro hdrop
    exact hcond ((wsLoop_drop_spec clients w).mp hdrop).2

/-- C7 witness: broadcasting to `"D1"` with a healthy client and a
client whose send raises removes exactly the failing client; the
healthy one is attempted, delivered to and still registered. -/
theorem c7_delivery_failure_isolated_witness :
    c7_bad ∉ (ws_broadcast "D1" [c7_good, c7_bad]).remaining ∧
    c7_good ∈ (ws_broadcast "D1" [c7_good, c7_bad]).attempted ∧
    c7_good ∈ (ws_broadcast "D1" [c7_good, c7_bad]).remaining ∧
    c7_good ∈ (ws_broadcast "D1" [c7_good, c7_bad]).delivered := by
  have h := c7_delivery_failure_isolated "D1" [c7_good, c7_bad] c7_bad
    (by decide) (by decide) rfl rfl
  exact ⟨h.1, h.2.1 c7_good (by decide) rfl,
    (h.2.2.1 c7_good (by decide) rfl rfl).1,
    (h.2.2.1 c7_good (by decide) rfl rfl).2⟩

/-- C8: the downlink reply never depends on the uplink.  `render_post`
builds the response from the gateway's fixed policy values
(`main.py:423-426`: `heartbeat_interval = 1100`, `location_mode = 2`,
i.e. WIFI), so any two successfully decoded uplinks get the identical
downlink configuration, and nothing carried in the device's message is
echoed back. -/
theorem c8_downlink_constant (u1 u2 : Uplink) :
    (render_post u1).downlink = (render_post u2).downlink ∧
    (render_post u1).downlink =
      { heartbeat_interval := 1100, location_mode := 2 } :=
  ⟨rfl, rfl⟩

/-- C10 counterexample: the claim's universal form fails.  On
`c10_bad_input` the heartbeat wire field is set (so the temperature
scalar is read, value 0), but the uplink carries no config section,
hence no device id: the broadcast block is skipped entirely
(`if dev_id:` at `main.py:310`) and the Coordinator's devid guard stops
persistence, so no temperature LiveEvent is broadcast and no
temperature `sensor_insert` is derived. -/
theorem c10_dropped_without_devid :
    c10_bad_input.heartbeat.isSome = true ∧
    EventType.temperature ∉ events c10_bad_input ∧
    OpKind.sensor_temperature ∉
      ((store_uplink_to_supabase (fun _ => true) (toStored c10_bad_input)).phase1
        ++ (store_uplink_to_supabase (fun _ => true)
              (toStored c10_bad_input)).phase2) := by
  decide

/-- C10 as amended: for every decoded uplink whose heartbeat wire field
is set and whose device id is present (truthy), the temperature reading
is treated as present regardless of its value — both the broadcast site
(`main.py:372`) and the Coordinator (`store_to_supabase.py:166`) test
it with `is not None` rather than truthiness — so a temperature
LiveEvent is broadcast and a temperature sensor insert is derived even
for a zero reading. -/
theorem c10_temperature_none_test (oracle : OpKind → Bool) (u : Uplink)
    (hhb : u.heartbeat.isSome = true)
    (hdev : truthyStr (extract u).dev_id = true) :
    (extract u).temperature.isSome = true ∧
    EventType.temperature ∈ events u ∧
    OpKind.sensor_temperature ∈
      (store_uplink_to_supabase oracle (toStored u)).phase2 := by
  have htemp : (extract u).temperature.isSome = true := by
    rcases hu : u.heartbeat with _ | hb
    · rw [hu] at hhb
      simp at hhb
    · simp [extract, hu]
  refine ⟨htemp, ?_, ?_⟩
  · simp [events, hdev, htemp]
  · have hdev' : truthyStr (toStored u).devid = true := by
      rw [toStored_devid]
      exact hdev
    rw [store_spec oracle (toStored u) hdev']
    simp [dependentOps, List.mem_append, mem_if_singleton,
      toStored_temperature, htemp]

/-- C10 witness: the amended theorem on `c10_zero_input`, whose
temperature reading is exactly zero: the temperature event is broadcast
and the temperature insert derived nonetheless. -/
theorem c10_temperature_none_test_witness :
    (extract c10_zero_input).temperature = some 0 ∧
    EventType.temperature ∈ events c10_zero_input ∧
    OpKind.sensor_temperature ∈
      (store_uplink_to_supabase (fun _ => true)
        (toStored c10_zero_input)).phase2 := by
  have h := c10_temperature_none_test (fun _ => true) c10_zero_input rfl
    (by decide)
  exact ⟨by decide, h.2.1, h.2.2⟩

end Gateway
